import Mathlib

/-!
Shallow embedding of `src/lib/tmdb.ts` (MoonTV): a compatibility shim that
fetches data from the TMDB API and reshapes it into Douban-style subject
records. We model the normalizer `normalizeToDouban`, the request/endpoint
dispatch of `getMovieList`, and the filtering of `searchMovies`.

JavaScript conventions captured in the model:
- A possibly-absent field of a loosely-typed upstream item is an `Option`.
- `a || b` on strings takes `b` when `a` is absent or the empty string
  (both are falsy in JS); on numbers it takes `b` when `a` is absent or 0.
- `item.id.toString()` throws a TypeError when `id` is absent, so the
  normalizer returns `Option`: `none` models a thrown exception.
- `date.split('-')[0]` is the prefix of the date string before the first
  dash character.
-/

namespace TMDB

/-- Module constant `IMAGE_BASE_URL` from the source. -/
def IMAGE_BASE_URL : String := "https://image.tmdb.org/t/p/w500"

/-- The grey placeholder poster used when an item has no `poster_path`. -/
def PLACEHOLDER_URL : String := "https://via.placeholder.com/400x600?text=No+Cover"

/-- An upstream TMDB result item: a loosely-typed record whose fields may
all be absent. Only the fields the source actually reads are modelled. -/
structure TMDBItem where
  id : Option Int
  title : Option String
  name : Option String
  original_title : Option String
  original_name : Option String
  release_date : Option String
  first_air_date : Option String
  poster_path : Option String
  vote_average : Option Rat
  overview : Option String
  media_type : Option String
deriving DecidableEq

/-- The TMDB item with every field absent: the JS object `\x7b\x7d`. -/
def emptyItem : TMDBItem :=
  { id := none, title := none, name := none, original_title := none,
    original_name := none, release_date := none, first_air_date := none,
    poster_path := none, vote_average := none, overview := none,
    media_type := none }

/-- Image block of the `DoubanSubject` interface (`medium` and `small` are
optional in the TypeScript interface). -/
structure Images where
  large : String
  medium : Option String
  small : Option String
deriving DecidableEq

/-- Rating block of the `DoubanSubject` interface: a single average value. -/
structure Rating where
  average : Rat
deriving DecidableEq

/-- Entry shape of the `casts` and `directors` arrays of `DoubanSubject`. -/
structure CastMember where
  name : String
  id : Option String
deriving DecidableEq

/-- The normalized output record (`DoubanSubject` interface). -/
structure DoubanSubject where
  id : String
  title : String
  original_title : String
  year : String
  images : Images
  rating : Rating
  genres : List String
  casts : List CastMember
  directors : List CastMember
  summary : String
deriving DecidableEq

/-- JS `a || b` for an optional string `a`: `b` when `a` is absent or empty
(falsy), otherwise the string held by `a`. -/
def jsOrStr (a : Option String) (b : String) : String :=
  match a with
  | some s => if s = "" then b else s
  | none => b

/-- JS truthiness of an optional string: present and non-empty. -/
def truthyStr (a : Option String) : Bool :=
  match a with
  | some s => s != ""
  | none => false

/-- JS `a || 0` for an optional number `a` (numbers modelled as `Rat`). -/
def jsOrZero (a : Option Rat) : Rat :=
  match a with
  | some v => if v = 0 then 0 else v
  | none => 0

/-- Characters before the first dash: the list-level core of
`date.split('-')[0]`. -/
def takeUntilDash : List Char → List Char
  | [] => []
  | c :: cs => if c = '-' then [] else c :: takeUntilDash cs

/-- `s.split('-')[0]`: the prefix of `s` before the first dash. -/
def splitDashHead (s : String) : String :=
  String.mk (takeUntilDash s.toList)

/-- The normalizer `normalizeToDouban` of the source. It returns `none`
exactly when the JS function throws: `item.id.toString()` is evaluated on
an absent `id`. Every other missing field degrades to a default. -/
def normalizeToDouban (item : TMDBItem) : Option DoubanSubject :=
  match item.id with
  | none => none
  | some idVal =>
    let title := jsOrStr item.title (jsOrStr item.name "")
    let original_title := jsOrStr item.original_title (jsOrStr item.original_name "")
    let date := jsOrStr item.release_date (jsOrStr item.first_air_date "")
    let year := if date = "" then "" else splitDashHead date
    let poster :=
      match item.poster_path with
      | some p => if p = "" then PLACEHOLDER_URL else IMAGE_BASE_URL ++ p
      | none => PLACEHOLDER_URL
    some
      { id := toString idVal
        title := title
        original_title := original_title
        year := year
        images := { large := poster, medium := some poster, small := some poster }
        rating := { average := jsOrZero item.vote_average }
        genres := []
        casts := []
        directors := []
        summary := jsOrStr item.overview "" }

/-- Media-type selection of `getMovieList`: `mediaType` starts as
`"movie"` and becomes `"tv"` only when `type === 'tv'`. -/
def mediaTypeOf (type : String) : String :=
  if type = "tv" then "tv" else "movie"

/-- Endpoint dispatch of `getMovieList`: the chain of tag comparisons
choosing the TMDB endpoint path. -/
def resolveEndpoint (type tag : String) : String :=
  let mediaType := mediaTypeOf type
  if tag = "hot" ∨ tag = "热门" then
    "/" ++ mediaType ++ "/popular"
  else if tag = "latest" ∨ tag = "最新" then
    if mediaType = "tv" then "/tv/on_the_air" else "/" ++ mediaType ++ "/now_playing"
  else if tag = "top250" ∨ tag = "high_score" then
    "/" ++ mediaType ++ "/top_rated"
  else
    "/" ++ mediaType ++ "/popular"

/-- The request `fetchTMDB` is asked to perform: an endpoint path and the
caller-supplied query parameters. -/
structure TMDBRequest where
  endpoint : String
  params : List (String × String)
deriving DecidableEq

/-- The request issued by `getMovieList type tag page limit`. -/
def getMovieListRequest (type tag : String) (page : Int) (limit : Int) : TMDBRequest :=
  { endpoint := resolveEndpoint type tag, params := [("page", toString page)] }

/-- The request issued by `searchMovies query page`. -/
def searchMoviesRequest (query : String) (page : Int) : TMDBRequest :=
  { endpoint := "/search/multi", params := [("query", query), ("page", toString page)] }

/-- What `fetchTMDB` can hand back to the caller after the `await`:
`null` (non-OK status or network failure), a JSON object with no
`results` array, or a `results` array of items. -/
inductive FetchResult where
  | absent : FetchResult
  | noResults : FetchResult
  | results : List TMDBItem → FetchResult
deriving DecidableEq

/-- `data.results.map(normalizeToDouban)`: the map throws (returns `none`)
as soon as normalizing one item throws. -/
def mapNormalize : List TMDBItem → Option (List DoubanSubject)
  | [] => some []
  | i :: rest =>
    match normalizeToDouban i, mapNormalize rest with
    | some r, some rs => some (r :: rs)
    | _, _ => none

/-- `getMovieList` of the source: builds the request, consults the fetcher,
returns `[]` when the response is `null` or has no `results` array, and
otherwise maps the results through the normalizer. `none` models a thrown
exception. The `limit` parameter is accepted and never read. -/
def getMovieList (fetcher : TMDBRequest → FetchResult) (type tag : String)
    (page : Int) (limit : Int) : Option (List DoubanSubject) :=
  match fetcher (getMovieListRequest type tag page limit) with
  | FetchResult.absent => some []
  | FetchResult.noResults => some []
  | FetchResult.results items => mapNormalize items

/-- The filter predicate of `searchMovies`:
`i.media_type === 'movie' || i.media_type === 'tv'`. -/
def isMovieOrTv (i : TMDBItem) : Bool :=
  i.media_type == some "movie" || i.media_type == some "tv"

/-- `searchMovies` of the source: queries `/search/multi`, returns `[]` on
an absent or malformed response, and otherwise filters the results to
movie/tv entries before normalizing. -/
def searchMovies (fetcher : TMDBRequest → FetchResult) (query : String)
    (page : Int) : Option (List DoubanSubject) :=
  match fetcher (searchMoviesRequest query page) with
  | FetchResult.absent => some []
  | FetchResult.noResults => some []
  | FetchResult.results items => mapNormalize (items.filter isMovieOrTv)

/-- An item carrying only an identifier and a release date; used to probe
the year-extraction path. -/
def itemRelDate (n : Int) (d : String) : TMDBItem :=
  { emptyItem with id := some n, release_date := some d }

end TMDB

namespace TMDB

/-- The normalizer succeeds exactly when the item carries an identifier. -/
theorem normalizeToDouban_isSome (item : TMDBItem) :
    (normalizeToDouban item).isSome = item.id.isSome := by
  cases hid : item.id <;> simp [normalizeToDouban, hid]

/-- The normalizer throws exactly when the item has no identifier. -/
theorem normalizeToDouban_eq_none (item : TMDBItem) (hid : item.id = none) :
    normalizeToDouban item = none := by
  unfold normalizeToDouban
  rw [hid]

/-- Explicit form of the record the normalizer builds for an item whose
identifier is present. -/
theorem normalizeToDouban_eq_some (item : TMDBItem) (n : Int) (hid : item.id = some n) :
    normalizeToDouban item = some
      { id := toString n
        title := jsOrStr item.title (jsOrStr item.name "")
        original_title := jsOrStr item.original_title (jsOrStr item.original_name "")
        year := (if jsOrStr item.release_date (jsOrStr item.first_air_date "") = "" then ""
                 else splitDashHead (jsOrStr item.release_date (jsOrStr item.first_air_date "")))
        images :=
          { large := (match item.poster_path with
                      | some p => if p = "" then PLACEHOLDER_URL else IMAGE_BASE_URL ++ p
                      | none => PLACEHOLDER_URL)
            medium := some (match item.poster_path with
                      | some p => if p = "" then PLACEHOLDER_URL else IMAGE_BASE_URL ++ p
                      | none => PLACEHOLDER_URL)
            small := some (match item.poster_path with
                      | some p => if p = "" then PLACEHOLDER_URL else IMAGE_BASE_URL ++ p
                      | none => PLACEHOLDER_URL) }
        rating := { average := jsOrZero item.vote_average }
        genres := []
        casts := []
        directors := []
        summary := jsOrStr item.overview "" } := by
  unfold normalizeToDouban
  rw [hid]

/-- Mapping the normalizer over a list succeeds when every item has an id. -/
theorem mapNormalize_isSome (l : List TMDBItem) (h : ∀ i ∈ l, i.id.isSome = true) :
    (mapNormalize l).isSome = true := by
  induction l with
  | nil => rfl
  | cons i rest ih =>
    have h1 : (normalizeToDouban i).isSome = true := by
      rw [normalizeToDouban_isSome]
      exact h i (List.mem_cons_self i rest)
    have h2 := ih (fun j hj => h j (List.mem_cons_of_mem i hj))
    unfold mapNormalize
    rcases hn : normalizeToDouban i with _ | r
    · rw [hn] at h1
      simp at h1
    · rcases hm : mapNormalize rest with _ | rs
      · rw [hm] at h2
        simp at h2
      · simp

/-- Every record a successful map produces comes from some listed item. -/
theorem mapNormalize_mem (l : List TMDBItem) (rs : List DoubanSubject)
    (h : mapNormalize l = some rs) (r : DoubanSubject) (hr : r ∈ rs) :
    ∃ i, i ∈ l ∧ normalizeToDouban i = some r := by
  induction l generalizing rs with
  | nil =>
    unfold mapNormalize at h
    injection h with h
    subst h
    simp at hr
  | cons i rest ih =>
    unfold mapNormalize at h
    rcases hn : normalizeToDouban i with _ | r0 <;> rw [hn] at h
    · cases h
    · rcases hm : mapNormalize rest with _ | rs0 <;> rw [hm] at h
      · cases h
      · injection h with h
        subst h
        rcases List.mem_cons.mp hr with hr0 | hr1
        · exact ⟨i, List.mem_cons_self i rest, hr0 ▸ hn⟩
        · obtain ⟨j, hj, hnj⟩ := ih rs0 hm hr1
          exact ⟨j, List.mem_cons_of_mem i hj, hnj⟩

end TMDB

namespace TMDB

/-- C1 (counterexample): on the empty item the normalizer throws
(`item.id.toString()` on an absent `id`), so it is not total. -/
theorem C1_counterexample : normalizeToDouban emptyItem = none := rfl

/-- C1 (amended): for every upstream item carrying an identifier the
normalizer produces a record; given an item with only an identifier, the
record has the placeholder image, zero rating, and empty year, title and
summary. -/
theorem C1_normalizer_total_with_id (item : TMDBItem) (n : Int) (h : item.id = some n) :
    (normalizeToDouban item).isSome = true ∧
    normalizeToDouban { emptyItem with id := some n } = some
      { id := toString n, title := "", original_title := "", year := "",
        images := { large := PLACEHOLDER_URL, medium := some PLACEHOLDER_URL,
                    small := some PLACEHOLDER_URL },
        rating := { average := 0 }, genres := [], casts := [], directors := [],
        summary := "" } := by
  constructor
  · rw [normalizeToDouban_isSome, h]
    rfl
  · rfl

/-- Witness for C1 at a concrete item. -/
theorem C1_witness : (normalizeToDouban { emptyItem with id := some 7 }).isSome = true :=
  (C1_normalizer_total_with_id { emptyItem with id := some 7 } 7 rfl).1

/-- C2: tag "hot"/"热门" selects popular, "latest"/"最新" selects
now-playing for movies and on-the-air for tv, "top250"/"high_score"
selects top-rated, and any other tag falls back to popular. -/
theorem C2_tag_mapping (type tag : String)
    (h1 : tag ≠ "hot") (h2 : tag ≠ "热门") (h3 : tag ≠ "latest") (h4 : tag ≠ "最新")
    (h5 : tag ≠ "top250") (h6 : tag ≠ "high_score") :
    resolveEndpoint type "hot" = "/" ++ mediaTypeOf type ++ "/popular" ∧
    resolveEndpoint type "热门" = "/" ++ mediaTypeOf type ++ "/popular" ∧
    resolveEndpoint type "latest" =
      (if mediaTypeOf type = "tv" then "/tv/on_the_air" else "/movie/now_playing") ∧
    resolveEndpoint type "最新" =
      (if mediaTypeOf type = "tv" then "/tv/on_the_air" else "/movie/now_playing") ∧
    resolveEndpoint type "top250" = "/" ++ mediaTypeOf type ++ "/top_rated" ∧
    resolveEndpoint type "high_score" = "/" ++ mediaTypeOf type ++ "/top_rated" ∧
    resolveEndpoint type tag = "/" ++ mediaTypeOf type ++ "/popular" := by
  have hm : mediaTypeOf type = "tv" ∨ mediaTypeOf type = "movie" := by
    unfold mediaTypeOf
    split <;> simp
  rcases hm with hm | hm <;>
    refine ⟨?_, ?_, ?_, ?_, ?_, ?_, ?_⟩ <;>
    simp [resolveEndpoint, hm, h1, h2, h3, h4, h5, h6]

/-- Witness for C2 with the unrecognized tag "action". -/
theorem C2_witness :
    resolveEndpoint "tv" "action" = "/" ++ mediaTypeOf "tv" ++ "/popular" :=
  (C2_tag_mapping "tv" "action" (by decide) (by decide) (by decide) (by decide)
    (by decide) (by decide)).2.2.2.2.2.2

/-- C3 (counterexample): a results array holding an item without an id
makes `getMovieList` throw instead of returning a list. -/
theorem C3_counterexample :
    getMovieList (fun _ => FetchResult.results [emptyItem]) "movie" "hot" 1 20 = none := rfl

/-- C3 (amended): provided every item of a results response carries an
identifier, both operations return a list of records and never throw. -/
theorem C3_no_throw (fetcher : TMDBRequest → FetchResult) (type tag q : String)
    (page limit : Int)
    (h : ∀ r items, fetcher r = FetchResult.results items → ∀ i ∈ items, i.id.isSome = true) :
    (getMovieList fetcher type tag page limit).isSome = true ∧
    (searchMovies fetcher q page).isSome = true := by
  constructor
  · unfold getMovieList
    cases hf : fetcher (getMovieListRequest type tag page limit) with
    | absent => rfl
    | noResults => rfl
    | results items => exact mapNormalize_isSome items (h _ items hf)
  · unfold searchMovies
    cases hf : fetcher (searchMoviesRequest q page) with
    | absent => rfl
    | noResults => rfl
    | results items =>
      apply mapNormalize_isSome
      intro i hi
      exact h _ items hf i (List.mem_of_mem_filter hi)

/-- Witness for C3 with an always-absent fetcher. -/
theorem C3_witness :
    (getMovieList (fun _ => FetchResult.absent) "movie" "hot" 1 20).isSome = true :=
  (C3_no_throw (fun _ => FetchResult.absent) "movie" "hot" "q" 1 20
    (fun _ _ hf => FetchResult.noConfusion hf)).1

/-- C4: search keeps exactly the results whose media_type is "movie" or
"tv", and every returned record is the normalization of such a result. -/
theorem C4_search_filters (fetcher : TMDBRequest → FetchResult) (q : String) (page : Int)
    (items : List TMDBItem)
    (hf : fetcher (searchMoviesRequest q page) = FetchResult.results items) :
    searchMovies fetcher q page = mapNormalize (items.filter isMovieOrTv) ∧
    (∀ i, i ∈ items.filter isMovieOrTv ↔
      i ∈ items ∧ (i.media_type = some "movie" ∨ i.media_type = some "tv")) ∧
    ∀ rs, searchMovies fetcher q page = some rs → ∀ r ∈ rs,
      ∃ i, i ∈ items ∧ (i.media_type = some "movie" ∨ i.media_type = some "tv") ∧
        normalizeToDouban i = some r := by
  have he : searchMovies fetcher q page = mapNormalize (items.filter isMovieOrTv) := by
    unfold searchMovies
    rw [hf]
  refine ⟨he, ?_, ?_⟩
  · intro i
    rw [List.mem_filter]
    simp [isMovieOrTv]
  · intro rs hrs r hr
    rw [he] at hrs
    obtain ⟨i, hi, hni⟩ := mapNormalize_mem _ _ hrs r hr
    rw [List.mem_filter] at hi
    refine ⟨i, hi.1, ?_, hni⟩
    have := hi.2
    simpa [isMovieOrTv] using this

/-- Witness for C4: a person result is dropped, a movie result is kept. -/
theorem C4_witness :
    searchMovies (fun _ => FetchResult.results
        [{ emptyItem with media_type := some "person" },
         { emptyItem with id := some 1, media_type := some "movie" }]) "q" 1 =
      mapNormalize ([{ emptyItem with media_type := some "person" },
         { emptyItem with id := some 1, media_type := some "movie" }].filter isMovieOrTv) :=
  (C4_search_filters _ "q" 1 _ rfl).1

/-- C5: an absent (null) fetch response or one without a results array
yields the empty list from both operations, with no throw. -/
theorem C5_absent_or_malformed (fetcher : TMDBRequest → FetchResult)
    (type tag q : String) (page limit : Int)
    (h : ∀ r, fetcher r = FetchResult.absent ∨ fetcher r = FetchResult.noResults) :
    getMovieList fetcher type tag page limit = some [] ∧
    searchMovies fetcher q page = some [] := by
  constructor
  · unfold getMovieList
    rcases h (getMovieListRequest type tag page limit) with hf | hf <;> rw [hf]
  · unfold searchMovies
    rcases h (searchMoviesRequest q page) with hf | hf <;> rw [hf]

/-- Witness for C5 with the constantly-null fetcher. -/
theorem C5_witness :
    getMovieList (fun _ => FetchResult.absent) "movie" "hot" 1 20 = some [] :=
  (C5_absent_or_malformed (fun _ => FetchResult.absent) "movie" "hot" "q" 1 20
    (fun _ => Or.inl rfl)).1

end TMDB

namespace TMDB

/-- C6: the year is the date truncated at the first dash; "2023-05-01"
yields "2023" and the empty date yields the empty year. -/
theorem C6_year_truncation (n : Int) (d : String) :
    (normalizeToDouban (itemRelDate n "2023-05-01")).map DoubanSubject.year = some "2023" ∧
    (normalizeToDouban (itemRelDate n "")).map DoubanSubject.year = some "" ∧
    (normalizeToDouban (itemRelDate n d)).map DoubanSubject.year =
      some (if d = "" then "" else splitDashHead d) := by
  refine ⟨rfl, rfl, ?_⟩
  by_cases hd : d = ""
  · subst hd
    rfl
  · simp [normalizeToDouban, itemRelDate, emptyItem, jsOrStr, hd]

/-- C7: title, original title and date are read movie-key-first with a
series-key fallback, and a present non-empty movie-style field wins. -/
theorem C7_field_fallback (item : TMDBItem) (r : DoubanSubject)
    (h : normalizeToDouban item = some r) :
    r.title = jsOrStr item.title (jsOrStr item.name "") ∧
    r.original_title = jsOrStr item.original_title (jsOrStr item.original_name "") ∧
    r.year = (if jsOrStr item.release_date (jsOrStr item.first_air_date "") = "" then ""
              else splitDashHead (jsOrStr item.release_date (jsOrStr item.first_air_date ""))) ∧
    (∀ s, item.title = some s → s ≠ "" → r.title = s) ∧
    (∀ s, item.original_title = some s → s ≠ "" → r.original_title = s) ∧
    (∀ s, item.release_date = some s → s ≠ "" → r.year = splitDashHead s) := by
  rcases hid : item.id with _ | n
  · rw [normalizeToDouban_eq_none item hid] at h
    cases h
  · rw [normalizeToDouban_eq_some item n hid] at h
    injection h with h
    subst h
    refine ⟨rfl, rfl, rfl, ?_, ?_, ?_⟩
    · intro s hs hne
      simp [jsOrStr, hs, hne]
    · intro s hs hne
      simp [jsOrStr, hs, hne]
    · intro s hs hne
      simp [jsOrStr, hs, hne]

/-- Witness for C7: the movie title wins over the series name. -/
theorem C7_witness :
    (normalizeToDouban { emptyItem with id := some 3, title := some "T", name := some "N" }).map DoubanSubject.title = some "T" := by
  have h := normalizeToDouban_eq_some
    { emptyItem with id := some 3, title := some "T", name := some "N" } 3 rfl
  rw [h]
  exact congrArg some ((C7_field_fallback _ _ h).2.2.2.1 "T" rfl (by decide))

/-- C8: the three image URLs agree (poster or placeholder), the genres,
casts and directors are empty, and the rating is a single average. -/
theorem C8_record_invariants (item : TMDBItem) (r : DoubanSubject)
    (h : normalizeToDouban item = some r) :
    r.images.medium = some r.images.large ∧
    r.images.small = some r.images.large ∧
    (r.images.large = PLACEHOLDER_URL ∨
      ∃ p, item.poster_path = some p ∧ p ≠ "" ∧ r.images.large = IMAGE_BASE_URL ++ p) ∧
    r.genres = [] ∧ r.casts = [] ∧ r.directors = [] ∧
    r.rating = { average := jsOrZero item.vote_average } := by
  rcases hid : item.id with _ | n
  · rw [normalizeToDouban_eq_none item hid] at h
    cases h
  · rw [normalizeToDouban_eq_some item n hid] at h
    injection h with h
    subst h
    refine ⟨rfl, rfl, ?_, rfl, rfl, rfl, rfl⟩
    rcases hp : item.poster_path with _ | p
    · left
      simp [hp]
    · by_cases hpe : p = ""
      · left
        simp [hp, hpe]
      · right
        exact ⟨p, rfl, hpe, by simp [hp, hpe]⟩

/-- Witness for C8 at an item with no poster. -/
theorem C8_witness :
    (normalizeToDouban { emptyItem with id := some 5 }).map DoubanSubject.genres =
      some [] := by
  have h := normalizeToDouban_eq_some { emptyItem with id := some 5 } 5 rfl
  rw [h]
  exact congrArg some (C8_record_invariants _ _ h).2.2.2.1

/-- C9: the limit parameter is never read: the issued request and the
returned value are the same for any two limits. -/
theorem C9_limit_unused (fetcher : TMDBRequest → FetchResult) (type tag : String)
    (page limit1 limit2 : Int) :
    getMovieListRequest type tag page limit1 = getMovieListRequest type tag page limit2 ∧
    getMovieList fetcher type tag page limit1 = getMovieList fetcher type tag page limit2 :=
  ⟨rfl, rfl⟩

/-- C10: any type other than exactly "tv" gets the movie endpoints; only
"tv" selects the tv endpoints. -/
theorem C10_media_type_default (type tag : String) (h : type ≠ "tv") :
    mediaTypeOf type = "movie" ∧
    mediaTypeOf "tv" = "tv" ∧
    resolveEndpoint type tag = resolveEndpoint "movie" tag ∧
    ∀ (fetcher : TMDBRequest → FetchResult) (page limit : Int),
      getMovieListRequest type tag page limit = getMovieListRequest "movie" tag page limit ∧
      getMovieList fetcher type tag page limit = getMovieList fetcher "movie" tag page limit := by
  have hm : mediaTypeOf type = "movie" := by
    unfold mediaTypeOf
    rw [if_neg h]
  have hm2 : mediaTypeOf "movie" = "movie" := by decide
  have hre : resolveEndpoint type tag = resolveEndpoint "movie" tag := by
    unfold resolveEndpoint
    rw [hm, hm2]
  have hreq : ∀ page limit : Int,
      getMovieListRequest type tag page limit = getMovieListRequest "movie" tag page limit := by
    intro page limit
    unfold getMovieListRequest
    rw [hre]
  refine ⟨hm, by decide, hre, ?_⟩
  intro fetcher page limit
  refine ⟨hreq page limit, ?_⟩
  unfold getMovieList
  rw [hreq page limit]

/-- Witness for C10 at the type string "series". -/
theorem C10_witness : mediaTypeOf "series" = "movie" :=
  (C10_media_type_default "series" "hot" (by decide)).1

end TMDB
